import Mathlib

/-!
Shallow embedding of the client-side conversation controller of the
entitlement-chatbot repository: the message-exchange pipeline
(`sendMessage` in `app/static/script.js` and in the popup-widget script)
and the panel visibility controller (`toggleChat`).

The DOM transcript (`chatbox`) is modelled as an append-only list of
entries tagged with unique element identities (so `contains` /
`removeChild` can be expressed); JSON response bodies are modelled with a
small JavaScript value type carrying JS truthiness and string coercion;
the `fetch` call is modelled as an explicit outcome parameter (a settled
response with status, status text and a parse result for `.json()`, or a
transport failure carrying the exception message).
-/

namespace Chatbot

/-- The CSS role of a rendered transcript entry (`user-message`,
`bot-message`, `error-message`), plus `pending` for the popup widget's
animated thinking indicator, which is rendered without text. -/
inductive Role where
  | user
  | bot
  | error
  | pending
  deriving DecidableEq, Repr

/-- One rendered transcript entry: role (CSS class) and text content. -/
structure ConversationEntry where
  role : Role
  text : String
  deriving DecidableEq, Repr

/-- The chatbox DOM container: entries in document order, each tagged with
a unique element identity so that `contains` and `removeChild` can be
modelled; `nextId` is the next fresh identity. -/
structure Chatbox where
  entries : List (Nat × ConversationEntry)
  nextId : Nat
  deriving DecidableEq, Repr

/-- `chatbox.appendChild(el)` for a fresh element: returns the element's
identity (the handle kept for later removal) and the grown chatbox. -/
def Chatbox.append (cb : Chatbox) (e : ConversationEntry) : Nat × Chatbox :=
  (cb.nextId, ⟨cb.entries ++ [(cb.nextId, e)], cb.nextId + 1⟩)

/-- `chatbox.contains(el)`. -/
def Chatbox.containsEl (cb : Chatbox) (h : Nat) : Bool :=
  cb.entries.any (fun p => p.1 = h)

/-- `chatbox.removeChild(el)`: drops the element with identity `h`. -/
def Chatbox.removeChild (cb : Chatbox) (h : Nat) : Chatbox :=
  ⟨cb.entries.filter (fun p => p.1 ≠ h), cb.nextId⟩

/-- The guarded removal idiom used for the thinking indicator:
`if (chatbox.contains(el)) { chatbox.removeChild(el); }`. -/
def Chatbox.removeIfContained (cb : Chatbox) (h : Nat) : Chatbox :=
  if cb.containsEl h then cb.removeChild h else cb

/-- JavaScript values as far as the scripts inspect them: the possible
results of `response.json()` and the fields read off them. -/
inductive JSValue where
  | vNull
  | vUndefined
  | vBool (b : Bool)
  | vNum (n : Int)
  | vStr (s : String)
  | vObj (fields : List (String × JSValue))

/-- JavaScript truthiness, as used by `data && data.reply` and
`errorData.error || response.statusText`. -/
def JSValue.truthy : JSValue → Bool
  | .vNull => false
  | .vUndefined => false
  | .vBool b => b
  | .vNum n => n ≠ 0
  | .vStr s => s ≠ ""
  | .vObj _ => true

/-- Property read `o.f` on a value already known non-null/non-undefined
(objects yield the field or `undefined`; primitives yield `undefined`). -/
def JSValue.getField : JSValue → String → JSValue
  | .vObj fields, f => (fields.lookup f).getD .vUndefined
  | _, _ => .vUndefined

/-- String coercion as performed by template literals and `textContent`
assignment. -/
def JSValue.display : JSValue → String
  | .vNull => "null"
  | .vUndefined => "undefined"
  | .vBool true => "true"
  | .vBool false => "false"
  | .vNum n => toString n
  | .vStr s => s
  | .vObj _ => "[object Object]"

/-- The settled outcome of the `fetch(API_URL, ...)` call.
`response status statusText body` is an HTTP response whose `.json()`
either parses (`.ok` with the parsed value) or rejects (`.error` with the
SyntaxError message); `failure msg` is a transport-layer failure whose
exception carries `msg` as its `.message`. -/
inductive FetchOutcome where
  | response (status : Nat) (statusText : String) (body : Except String JSValue)
  | failure (msg : String)

/-- `response.ok`: status in the 2xx range. -/
def responseOk (status : Nat) : Bool :=
  200 ≤ status ∧ status ≤ 299

/-- The mutable state the pipeline touches: the chatbox, the input field's
current value, and the `console.error` diagnostic log. -/
structure WidgetState where
  chatbox : Chatbox
  inputValue : String
  log : List String
  deriving DecidableEq, Repr

/-- JavaScript `String.prototype.trim()`: strips leading and trailing
whitespace. -/
def jsTrim (s : String) : String :=
  ⟨((s.data.dropWhile Char.isWhitespace).reverse.dropWhile Char.isWhitespace).reverse⟩

/-- `addMessageToChatbox(message, sender)`: creates a message element with
the sender's CSS class and the text as `textContent`, appends it, and
returns the element. -/
def addMessageToChatbox (message : String) (sender : Role) (cb : Chatbox) :
    Nat × Chatbox :=
  cb.append ⟨sender, message⟩

/-- `addThinkingIndicator()` (popup-widget script): appends the animated
three-dot indicator element, which carries no text, and returns it. -/
def addThinkingIndicator (cb : Chatbox) : Nat × Chatbox :=
  cb.append ⟨.pending, ""⟩

/-- What distinguishes the two copies of the pipeline: how the in-flight
indicator is created, the fixed message for an empty/invalid 2xx body, the
message rendered by the `catch` handler (a function of the caught
exception's `.message`), and the label used when logging an API error. -/
structure ScriptVariant where
  mkIndicator : Chatbox → Nat × Chatbox
  emptyInvalidMsg : String
  catchMsg : String → String
  apiLogLabel : String

/-- `app/static/script.js`: indicator is `addMessageToChatbox('...', 'bot')`;
the catch handler renders `Network error or failed to connect to the
server. (${error.message})`. -/
def scriptJs : ScriptVariant where
  mkIndicator := addMessageToChatbox "..." .bot
  emptyInvalidMsg := "Received an empty or invalid response from the server."
  catchMsg := fun m => "Network error or failed to connect to the server. (" ++ m ++ ")"
  apiLogLabel := "API Error Response:"

/-- The popup-widget script: indicator is `addThinkingIndicator()`; the
catch handler renders the generic `Connection error. Please try again
later.` with no exception detail. -/
def popupScript : ScriptVariant where
  mkIndicator := addThinkingIndicator
  emptyInvalidMsg := "Received an empty or invalid response."
  catchMsg := fun _ => "Connection error. Please try again later."
  apiLogLabel := "API Error:"

/-- The `catch (error)` handler shared by both scripts: guarded removal of
the thinking indicator, `console.error('Fetch Error:', error)`, then an
error-role entry with the variant's connection-failure text. -/
def catchHandler (v : ScriptVariant) (indicator : Nat) (st : WidgetState)
    (errMsg : String) : WidgetState :=
  let cb := st.chatbox.removeIfContained indicator
  { st with
    chatbox := (addMessageToChatbox (v.catchMsg errMsg) .error cb).2
    log := st.log ++ ["Fetch Error: " ++ errMsg] }

/-- The continuation of `sendMessage` after `await fetch` settles:
indicator removal, HTTP-error branch, JSON parse, reply classification.
Property access `errorData.error` on a `null`/`undefined` parse result
throws and lands in the `catch` block, as in JavaScript. -/
def handleFetchSettled (v : ScriptVariant) (indicator : Nat)
    (st : WidgetState) (outcome : FetchOutcome) : WidgetState :=
  match outcome with
  | .failure msg => catchHandler v indicator st msg
  | .response status statusText body =>
      let st1 := { st with chatbox := st.chatbox.removeIfContained indicator }
      if ¬ responseOk status then
        let errorData : JSValue :=
          match body with
          | .ok j => j
          | .error _ => .vObj [("error", .vStr ("HTTP error! Status: " ++ toString status))]
        match errorData with
        | .vNull => catchHandler v indicator st1
            "Cannot read properties of null (reading 'error')"
        | .vUndefined => catchHandler v indicator st1
            "Cannot read properties of undefined (reading 'error')"
        | _ =>
            let e := errorData.getField "error"
            let resolved := if e.truthy then e.display else statusText
            { st1 with
              chatbox := (addMessageToChatbox ("Error: " ++ resolved) .error st1.chatbox).2
              log := st1.log ++ [v.apiLogLabel ++ " " ++ errorData.display] }
      else
        match body with
        | .error parseMsg => catchHandler v indicator st1 parseMsg
        | .ok data =>
            if data.truthy ∧ (data.getField "reply").truthy then
              { st1 with
                chatbox :=
                  (addMessageToChatbox (data.getField "reply").display .bot st1.chatbox).2 }
            else
              { st1 with
                chatbox :=
                  (addMessageToChatbox v.emptyInvalidMsg .error st1.chatbox).2 }

/-- The synchronous part of `sendMessage` up to the dispatch of the fetch:
trim-validation (returning `none` for the empty no-op), optimistic
user-entry render, input clearing, and indicator creation. Returns the
state at the moment the network call is dispatched together with the
indicator handle. -/
def sendMessageBeforeDispatch (v : ScriptVariant) (st : WidgetState) :
    Option (WidgetState × Nat) :=
  let userMessage := jsTrim st.inputValue
  if userMessage = "" then
    none
  else
    let cb1 := (addMessageToChatbox userMessage .user st.chatbox).2
    let (indicator, cb2) := v.mkIndicator cb1
    some ({ st with chatbox := cb2, inputValue := "" }, indicator)

/-- `sendMessage()` for one exchange whose fetch settles with `outcome`:
returns the final widget state and whether a network call was issued. -/
def sendMessage (v : ScriptVariant) (st : WidgetState)
    (outcome : FetchOutcome) : WidgetState × Bool :=
  match sendMessageBeforeDispatch v st with
  | none => (st, false)
  | some (st1, indicator) => (handleFetchSettled v indicator st1 outcome, true)

/-- `classList.add(c)`: token-list add, no duplicates. -/
def classListAdd (cl : List String) (c : String) : List String :=
  if cl.contains c then cl else cl ++ [c]

/-- `classList.remove(c)`: token-list removal. -/
def classListRemove (cl : List String) (c : String) : List String :=
  cl.filter (fun t => t ≠ c)

/-- `toggleChat()` on the popup's class list: if `hidden` is present,
remove it (show; focus is scheduled), else add it (hide). Returns the new
class list and whether focus was scheduled. -/
def toggleChat (cl : List String) : List String × Bool :=
  if cl.contains "hidden" then
    (classListRemove cl "hidden", true)
  else
    (classListAdd cl "hidden", false)

/-- PanelState of the spec's data model. -/
inductive PanelState where
  | closed
  | open
  deriving DecidableEq, Repr

/-- The popup's PanelState as determined by its class list. -/
def panelState (cl : List String) : PanelState :=
  if cl.contains "hidden" then .closed else .open

/-- The terminal entry that one exchange appends after indicator removal,
as a function of the fetch outcome (proved to characterize
`handleFetchSettled` in `handleFetchSettled_run`). -/
def terminalEntry (v : ScriptVariant) : FetchOutcome → ConversationEntry
  | .failure msg => ⟨.error, v.catchMsg msg⟩
  | .response status statusText body =>
      if ¬ responseOk status then
        match body with
        | .error _ => ⟨.error, "Error: HTTP error! Status: " ++ toString status⟩
        | .ok .vNull => ⟨.error, v.catchMsg "Cannot read properties of null (reading 'error')"⟩
        | .ok .vUndefined =>
            ⟨.error, v.catchMsg "Cannot read properties of undefined (reading 'error')"⟩
        | .ok j =>
            let e := j.getField "error"
            ⟨.error, "Error: " ++ (if e.truthy then e.display else statusText)⟩
      else
        match body with
        | .error parseMsg => ⟨.error, v.catchMsg parseMsg⟩
        | .ok data =>
            if data.truthy ∧ (data.getField "reply").truthy then
              ⟨.bot, (data.getField "reply").display⟩
            else
              ⟨.error, v.emptyInvalidMsg⟩

/-- A chatbox is well formed when every rendered element's identity is
below the fresh-identity counter (true of every reachable chatbox). -/
def Chatbox.wf (cb : Chatbox) : Prop :=
  ∀ p ∈ cb.entries, p.1 < cb.nextId

lemma containsEl_true_of_mem (cb : Chatbox) (h : Nat)
    (hm : ∃ p ∈ cb.entries, p.1 = h) : cb.containsEl h = true := by
  rcases hm with ⟨p, hp, he⟩
  simp only [Chatbox.containsEl, List.any_eq_true]
  exact ⟨p, hp, by simp [he]⟩

lemma containsEl_false_of_forall (cb : Chatbox) (h : Nat)
    (hall : ∀ p ∈ cb.entries, p.1 ≠ h) : cb.containsEl h = false := by
  simp only [Chatbot.Chatbox.containsEl, List.any_eq_false, decide_eq_true_eq]
  exact hall

/-- Removing the freshly appended indicator from a chatbox of the shape
left by the optimistic render leaves exactly the user entry appended. -/
lemma removeIfContained_pending (l : List (Nat × ConversationEntry)) (n : Nat)
    (u ind : ConversationEntry) (wf : ∀ p ∈ l, p.1 < n) :
    Chatbox.removeIfContained ⟨l ++ [(n, u), (n + 1, ind)], n + 2⟩ (n + 1)
      = ⟨l ++ [(n, u)], n + 2⟩ := by
  have hc : Chatbox.containsEl ⟨l ++ [(n, u), (n + 1, ind)], n + 2⟩ (n + 1) = true :=
    containsEl_true_of_mem _ _ ⟨(n + 1, ind), by simp, rfl⟩
  rw [Chatbox.removeIfContained, hc]
  simp only [if_true, Chatbox.removeChild, List.filter_append]
  have hl : l.filter (fun p => p.1 ≠ n + 1) = l := by
    refine List.filter_eq_self.mpr (fun p hp => ?_)
    simp only [decide_eq_true_eq]
    exact Nat.ne_of_lt (Nat.lt_succ_of_lt (wf p hp))
  rw [hl]
  simp

/-- A second guarded removal of an already-removed indicator is a no-op. -/
lemma removeIfContained_absent (l : List (Nat × ConversationEntry)) (n : Nat)
    (u : ConversationEntry) (wf : ∀ p ∈ l, p.1 < n) :
    Chatbox.removeIfContained ⟨l ++ [(n, u)], n + 2⟩ (n + 1)
      = ⟨l ++ [(n, u)], n + 2⟩ := by
  rw [Chatbox.removeIfContained]
  have hc : Chatbox.containsEl ⟨l ++ [(n, u)], n + 2⟩ (n + 1) = false := by
    refine containsEl_false_of_forall _ _ (fun p hp => ?_)
    rcases List.mem_append.mp hp with hpl | hpu
    · exact Nat.ne_of_lt (Nat.lt_succ_of_lt (wf p hpl))
    · simp only [List.mem_singleton] at hpu
      subst hpu
      exact Nat.ne_of_lt (Nat.lt_succ_self n)
  rw [hc]
  simp

/-- `removeIfContained` makes duplicate indicator removal idempotent. -/
lemma removeIfContained_idem (cb : Chatbox) (h : Nat) :
    (cb.removeIfContained h).removeIfContained h = cb.removeIfContained h := by
  by_cases hc : cb.containsEl h = true
  · have h1 : cb.removeIfContained h = cb.removeChild h := by
      rw [Chatbox.removeIfContained, hc]; simp
    have h2 : (cb.removeChild h).containsEl h = false := by
      refine containsEl_false_of_forall _ _ (fun p hp => ?_)
      simp only [Chatbox.removeChild, List.mem_filter, decide_eq_true_eq] at hp
      exact hp.2
    rw [h1, Chatbox.removeIfContained, h2]
    simp
  · have hc' : cb.containsEl h = false := Bool.eq_false_iff.mpr hc
    have h1 : cb.removeIfContained h = cb := by
      rw [Chatbox.removeIfContained, hc']; simp
    rw [h1, h1]

/-- A string with a non-empty left part is non-empty. -/
lemma str_append_ne_empty (s t : String) (hs : s ≠ "") : s ++ t ≠ "" := by
  intro h
  apply hs
  have hd := congrArg String.data h
  simp only [String.data_append] at hd
  exact String.ext (List.append_eq_nil.mp hd).1

/-- Settling one exchange on the state left by the optimistic render
removes the indicator and appends exactly the terminal entry; the input
field stays cleared. -/
lemma handleFetchSettled_run (v : ScriptVariant) (ind u : ConversationEntry)
    (l : List (Nat × ConversationEntry)) (n : Nat) (lg : List String)
    (outcome : FetchOutcome) (wf : ∀ p ∈ l, p.1 < n) :
    (handleFetchSettled v (n + 1)
        ⟨⟨l ++ [(n, u), (n + 1, ind)], n + 2⟩, "", lg⟩ outcome).chatbox
      = ⟨l ++ [(n, u), (n + 2, terminalEntry v outcome)], n + 3⟩
    ∧ (handleFetchSettled v (n + 1)
        ⟨⟨l ++ [(n, u), (n + 1, ind)], n + 2⟩, "", lg⟩ outcome).inputValue = "" := by
  cases outcome with
  | failure msg =>
      simp [handleFetchSettled, catchHandler, terminalEntry,
        removeIfContained_pending l n u ind wf, addMessageToChatbox, Chatbox.append]
  | response status statusText body =>
      by_cases hok : responseOk status = true
      · cases body with
        | error parseMsg =>
            simp [handleFetchSettled, catchHandler, terminalEntry, hok,
              removeIfContained_pending l n u ind wf,
              removeIfContained_absent l n u wf,
              addMessageToChatbox, Chatbox.append]
        | ok data =>
            by_cases hd : data.truthy = true ∧ (data.getField "reply").truthy = true
            · simp [handleFetchSettled, terminalEntry, hok, hd,
                removeIfContained_pending l n u ind wf,
                addMessageToChatbox, Chatbox.append]
            · simp [handleFetchSettled, terminalEntry, hok, hd,
                removeIfContained_pending l n u ind wf,
                addMessageToChatbox, Chatbox.append]
      · have hok' : responseOk status = false := Bool.eq_false_iff.mpr hok
        cases body with
        | error parseMsg =>
            have hsyn : ("HTTP error! Status: " ++ toString status) ≠ "" :=
              str_append_ne_empty _ _ (by decide)
            simp [handleFetchSettled, terminalEntry, hok',
              removeIfContained_pending l n u ind wf,
              addMessageToChatbox, Chatbox.append, JSValue.getField,
              JSValue.truthy, JSValue.display, hsyn]
            rw [← String.append_assoc]
            congr 1
        | ok data =>
            cases data with
            | vNull =>
                simp [handleFetchSettled, catchHandler, terminalEntry, hok',
                  removeIfContained_pending l n u ind wf,
                  removeIfContained_absent l n u wf,
                  addMessageToChatbox, Chatbox.append]
            | vUndefined =>
                simp [handleFetchSettled, catchHandler, terminalEntry, hok',
                  removeIfContained_pending l n u ind wf,
                  removeIfContained_absent l n u wf,
                  addMessageToChatbox, Chatbox.append]
            | vBool b =>
                simp [handleFetchSettled, terminalEntry, hok',
                  removeIfContained_pending l n u ind wf,
                  addMessageToChatbox, Chatbox.append]
            | vNum m =>
                simp [handleFetchSettled, terminalEntry, hok',
                  removeIfContained_pending l n u ind wf,
                  addMessageToChatbox, Chatbox.append]
            | vStr s =>
                simp [handleFetchSettled, terminalEntry, hok',
                  removeIfContained_pending l n u ind wf,
                  addMessageToChatbox, Chatbox.append]
            | vObj fields =>
                simp [handleFetchSettled, terminalEntry, hok',
                  removeIfContained_pending l n u ind wf,
                  addMessageToChatbox, Chatbox.append]

/-- For a non-empty trimmed input, `sendMessage` dispatches: it is the
settlement handler applied to the post-render state (user entry appended,
indicator appended, input cleared), and the call flag is set. -/
lemma sendMessage_dispatch (v : ScriptVariant)
    (hv : v = scriptJs ∨ v = popupScript) (st : WidgetState)
    (outcome : FetchOutcome) (hne : jsTrim st.inputValue ≠ "") :
    ∃ ind : ConversationEntry,
      sendMessage v st outcome =
        (handleFetchSettled v (st.chatbox.nextId + 1)
          ⟨⟨st.chatbox.entries ++
              [(st.chatbox.nextId, ⟨.user, jsTrim st.inputValue⟩),
               (st.chatbox.nextId + 1, ind)], st.chatbox.nextId + 2⟩,
            "", st.log⟩ outcome, true) := by
  obtain ⟨⟨l, n⟩, inp, lg⟩ := st
  rcases hv with rfl | rfl
  · exact ⟨⟨.bot, "..."⟩, by
      simp [sendMessage, sendMessageBeforeDispatch, hne, scriptJs,
        addMessageToChatbox, Chatbox.append]⟩
  · exact ⟨⟨.pending, ""⟩, by
      simp [sendMessage, sendMessageBeforeDispatch, hne, popupScript,
        addMessageToChatbox, addThinkingIndicator, Chatbox.append]⟩

/-- Full run characterization: for a non-empty trimmed input on a
well-formed chatbox, one exchange appends exactly the user entry and the
terminal entry, clears the input, and issues the network call. -/
lemma sendMessage_run (v : ScriptVariant)
    (hv : v = scriptJs ∨ v = popupScript) (st : WidgetState)
    (outcome : FetchOutcome) (hne : jsTrim st.inputValue ≠ "")
    (wf : st.chatbox.wf) :
    (sendMessage v st outcome).1.chatbox
      = ⟨st.chatbox.entries ++
          [(st.chatbox.nextId, ⟨.user, jsTrim st.inputValue⟩),
           (st.chatbox.nextId + 2, terminalEntry v outcome)],
         st.chatbox.nextId + 3⟩
    ∧ (sendMessage v st outcome).1.inputValue = ""
    ∧ (sendMessage v st outcome).2 = true := by
  obtain ⟨ind, heq⟩ := sendMessage_dispatch v hv st outcome hne
  have hrun := handleFetchSettled_run v ind ⟨.user, jsTrim st.inputValue⟩
    st.chatbox.entries st.chatbox.nextId st.log outcome wf
  rw [heq]
  exact ⟨hrun.1, hrun.2, rfl⟩

/-- An input that trims to empty makes `sendMessage` a complete no-op. -/
lemma sendMessage_noop (v : ScriptVariant) (st : WidgetState)
    (outcome : FetchOutcome) (hws : jsTrim st.inputValue = "") :
    sendMessage v st outcome = (st, false) := by
  simp [sendMessage, sendMessageBeforeDispatch, hws]

/-- On a transport failure the caught exception's message is appended to
the `console.error` diagnostic log. -/
lemma sendMessage_failure_log (v : ScriptVariant)
    (hv : v = scriptJs ∨ v = popupScript) (st : WidgetState) (msg : String)
    (hne : jsTrim st.inputValue ≠ "") :
    (sendMessage v st (.failure msg)).1.log
      = st.log ++ ["Fetch Error: " ++ msg] := by
  obtain ⟨ind, heq⟩ := sendMessage_dispatch v hv st (.failure msg) hne
  rw [heq]
  simp [handleFetchSettled, catchHandler]

lemma not_mem_classListRemove (cl : List String) (c : String) :
    c ∉ classListRemove cl c := by
  simp [classListRemove]

lemma mem_classListAdd (cl : List String) (c : String) :
    c ∈ classListAdd cl c := by
  by_cases h : c ∈ cl <;> simp [classListAdd, h]

/-- C1: for a submitted non-empty input whose response has a 2xx status
and whose JSON body carries a (non-empty) string `reply` field, the
pipeline appends exactly one terminal entry with role `bot` whose text is
the reply value verbatim. -/
theorem reply_ok_renders_bot (v : ScriptVariant) (st : WidgetState)
    (status : Nat) (statusText : String)
    (fields : List (String × JSValue)) (s : String)
    (hv : v = scriptJs ∨ v = popupScript)
    (hne : jsTrim st.inputValue ≠ "") (wf : st.chatbox.wf)
    (hok : responseOk status = true)
    (hreply : fields.lookup "reply" = some (.vStr s)) (hs : s ≠ "") :
    (sendMessage v st
        (.response status statusText (.ok (.vObj fields)))).1.chatbox.entries
      = st.chatbox.entries ++
          [(st.chatbox.nextId, ⟨.user, jsTrim st.inputValue⟩),
           (st.chatbox.nextId + 2, ⟨.bot, s⟩)] := by
  have h := (sendMessage_run v hv st
    (.response status statusText (.ok (.vObj fields))) hne wf).1
  have hterm : terminalEntry v (.response status statusText (.ok (.vObj fields)))
      = ⟨.bot, s⟩ := by
    simp [terminalEntry, hok, JSValue.getField, hreply, JSValue.truthy,
      JSValue.display, hs]
  rw [h, hterm]

/-- Witness for C1: a 2xx response with body `{"reply": "Hi there"}`
renders a bot entry with text `Hi there`. -/
theorem reply_ok_renders_bot_witness :
    (sendMessage scriptJs ⟨⟨[], 0⟩, "hello", []⟩
        (.response 200 "OK" (.ok (.vObj [("reply", .vStr "Hi there")])))).1.chatbox.entries
      = [(0, ⟨.user, "hello"⟩), (2, ⟨.bot, "Hi there"⟩)] :=
  reply_ok_renders_bot scriptJs ⟨⟨[], 0⟩, "hello", []⟩ 200 "OK"
    [("reply", .vStr "Hi there")] "Hi there" (Or.inl rfl) (by decide)
    (by intro p hp; simp [Chatbox.wf] at hp) (by decide) rfl (by decide)

/-- C5: an input that is empty or whitespace-only makes `sendMessage` a
no-op: the state (transcript included) is unchanged, no pending indicator
exists, and no network call is issued. -/
theorem whitespace_submit_noop (v : ScriptVariant) (st : WidgetState)
    (outcome : FetchOutcome) (hws : jsTrim st.inputValue = "") :
    sendMessage v st outcome = (st, false) :=
  sendMessage_noop v st outcome hws

/-- Witness for C5 at the whitespace-only input `"   "`. -/
theorem whitespace_submit_noop_witness :
    jsTrim "   " = ""
    ∧ sendMessage scriptJs ⟨⟨[], 0⟩, "   ", []⟩ (.failure "boom")
        = (⟨⟨[], 0⟩, "   ", []⟩, false) :=
  ⟨by decide,
   whitespace_submit_noop scriptJs ⟨⟨[], 0⟩, "   ", []⟩ (.failure "boom") (by decide)⟩

/-- C8: `toggleChat` flips the PanelState determined by the popup's class
list, and two toggles restore the original PanelState, from any state. -/
theorem toggleChat_flips_and_involutive (cl : List String) :
    panelState (toggleChat cl).1 ≠ panelState cl
    ∧ panelState (toggleChat (toggleChat cl).1).1 = panelState cl := by
  by_cases h : "hidden" ∈ cl
  · have h1 := not_mem_classListRemove cl "hidden"
    have h2 := mem_classListAdd (classListRemove cl "hidden") "hidden"
    constructor
    · simp [toggleChat, panelState, h, h1]
    · simp [toggleChat, panelState, h, h1, h2]
  · have h1 := mem_classListAdd cl "hidden"
    have h2 := not_mem_classListRemove (classListAdd cl "hidden") "hidden"
    constructor
    · simp [toggleChat, panelState, h, h1]
    · simp [toggleChat, panelState, h, h1, h2]

/-- C2 counterexample: a 2xx response whose body has the non-string
(truthy) reply value `5` renders a bot entry with text `5`, not the
role=error entry with the fixed empty-or-invalid message that the claim
requires for every non-string reply value. -/
theorem nonstring_truthy_reply_renders_bot_cex :
    (sendMessage scriptJs ⟨⟨[], 0⟩, "hello", []⟩
        (.response 200 "OK" (.ok (.vObj [("reply", .vNum 5)])))).1.chatbox.entries
      = [(0, ⟨.user, "hello"⟩), (2, ⟨.bot, "5"⟩)]
    ∧ Role.bot ≠ Role.error := by
  exact ⟨by decide, by decide⟩

/-- C2 amended: on a 2xx response, a body that parses but whose `reply`
value is missing or falsy (absent field, empty string, falsy non-string)
yields exactly one role=error entry with the fixed empty-or-invalid
message; a 2xx body that fails to parse instead lands in the catch
handler and yields its connection-failure message. -/
theorem ok_falsy_or_missing_reply_renders_fixed_error (v : ScriptVariant)
    (st : WidgetState) (status : Nat) (statusText : String)
    (hv : v = scriptJs ∨ v = popupScript)
    (hne : jsTrim st.inputValue ≠ "") (wf : st.chatbox.wf)
    (hok : responseOk status = true) :
    (∀ data : JSValue,
      ¬(data.truthy = true ∧ (data.getField "reply").truthy = true) →
      (sendMessage v st (.response status statusText (.ok data))).1.chatbox.entries
        = st.chatbox.entries ++
            [(st.chatbox.nextId, ⟨.user, jsTrim st.inputValue⟩),
             (st.chatbox.nextId + 2, ⟨.error, v.emptyInvalidMsg⟩)])
    ∧ (∀ parseMsg : String,
      (sendMessage v st (.response status statusText (.error parseMsg))).1.chatbox.entries
        = st.chatbox.entries ++
            [(st.chatbox.nextId, ⟨.user, jsTrim st.inputValue⟩),
             (st.chatbox.nextId + 2, ⟨.error, v.catchMsg parseMsg⟩)]) := by
  constructor
  · intro data hd
    have h := (sendMessage_run v hv st
      (.response status statusText (.ok data)) hne wf).1
    have hterm : terminalEntry v (.response status statusText (.ok data))
        = ⟨.error, v.emptyInvalidMsg⟩ := by
      simp only [terminalEntry, hok, not_true, ite_false, if_neg hd]
    rw [h, hterm]
  · intro parseMsg
    have h := (sendMessage_run v hv st
      (.response status statusText (.error parseMsg)) hne wf).1
    have hterm : terminalEntry v (.response status statusText (.error parseMsg))
        = ⟨.error, v.catchMsg parseMsg⟩ := by
      simp [terminalEntry, hok]
    rw [h, hterm]

/-- Witness for the amended C2: a 2xx body `{}` with no reply field. -/
theorem ok_falsy_or_missing_reply_renders_fixed_error_witness :
    (sendMessage scriptJs ⟨⟨[], 0⟩, "hello", []⟩
        (.response 200 "OK" (.ok (.vObj [])))).1.chatbox.entries
      = [(0, ⟨.user, "hello"⟩),
         (2, ⟨.error, "Received an empty or invalid response from the server."⟩)] :=
  (ok_falsy_or_missing_reply_renders_fixed_error scriptJs
      ⟨⟨[], 0⟩, "hello", []⟩ 200 "OK" (Or.inl rfl) (by decide)
      (by intro p hp; simp [Chatbox.wf] at hp) (by decide)).1
    (.vObj []) (by decide)

/-- C3 counterexample: a 500 response whose body parses with an `error`
field that is present but empty renders the HTTP status line fallback,
not the body's error field text, so "the body's error field text when
present" fails at this input. -/
theorem error_field_empty_falls_back_cex :
    (sendMessage scriptJs ⟨⟨[], 0⟩, "hello", []⟩
        (.response 500 "Internal Server Error"
          (.ok (.vObj [("error", .vStr "")])))).1.chatbox.entries
      = [(0, ⟨.user, "hello"⟩), (2, ⟨.error, "Error: Internal Server Error"⟩)]
    ∧ [("error", JSValue.vStr "")].lookup "error" = some (.vStr "")
    ∧ ("Error: Internal Server Error" : String) ≠ "Error: " ++ "" := by
  exact ⟨by decide, rfl, by decide⟩

/-- C3 amended: on a non-OK status the rendered role=error text is the
body's error field text when present and truthy (non-empty); a synthesized
`HTTP error! Status: <code>` message when the body does not parse; and
the HTTP status line when the parsed body has no error field. -/
theorem http_error_message_resolution (v : ScriptVariant) (st : WidgetState)
    (status : Nat) (statusText : String)
    (hv : v = scriptJs ∨ v = popupScript)
    (hne : jsTrim st.inputValue ≠ "") (wf : st.chatbox.wf)
    (hnok : responseOk status = false) :
    (∀ parseMsg : String,
      (sendMessage v st (.response status statusText (.error parseMsg))).1.chatbox.entries
        = st.chatbox.entries ++
            [(st.chatbox.nextId, ⟨.user, jsTrim st.inputValue⟩),
             (st.chatbox.nextId + 2,
              ⟨.error, "Error: HTTP error! Status: " ++ toString status⟩)])
    ∧ (∀ (fields : List (String × JSValue)) (es : String),
        fields.lookup "error" = some (.vStr es) → es ≠ "" →
      (sendMessage v st (.response status statusText (.ok (.vObj fields)))).1.chatbox.entries
        = st.chatbox.entries ++
            [(st.chatbox.nextId, ⟨.user, jsTrim st.inputValue⟩),
             (st.chatbox.nextId + 2, ⟨.error, "Error: " ++ es⟩)])
    ∧ (∀ fields : List (String × JSValue),
        fields.lookup "error" = none →
      (sendMessage v st (.response status statusText (.ok (.vObj fields)))).1.chatbox.entries
        = st.chatbox.entries ++
            [(st.chatbox.nextId, ⟨.user, jsTrim st.inputValue⟩),
             (st.chatbox.nextId + 2, ⟨.error, "Error: " ++ statusText⟩)]) := by
  refine ⟨fun parseMsg => ?_, fun fields es hf hes => ?_, fun fields hf => ?_⟩
  · have h := (sendMessage_run v hv st
      (.response status statusText (.error parseMsg)) hne wf).1
    have hterm : terminalEntry v (.response status statusText (.error parseMsg))
        = ⟨.error, "Error: HTTP error! Status: " ++ toString status⟩ := by
      simp [terminalEntry, hnok]
    rw [h, hterm]
  · have h := (sendMessage_run v hv st
      (.response status statusText (.ok (.vObj fields))) hne wf).1
    have hterm : terminalEntry v (.response status statusText (.ok (.vObj fields)))
        = ⟨.error, "Error: " ++ es⟩ := by
      simp [terminalEntry, hnok, JSValue.getField, hf, JSValue.truthy,
        JSValue.display, hes]
    rw [h, hterm]
  · have h := (sendMessage_run v hv st
      (.response status statusText (.ok (.vObj fields))) hne wf).1
    have hterm : terminalEntry v (.response status statusText (.ok (.vObj fields)))
        = ⟨.error, "Error: " ++ statusText⟩ := by
      simp [terminalEntry, hnok, JSValue.getField, hf, JSValue.truthy,
        JSValue.display]
    rw [h, hterm]

/-- Witness for the amended C3: a 500 response with an unparsable body
renders text containing the literal status code. -/
theorem http_error_message_resolution_witness :
    (sendMessage scriptJs ⟨⟨[], 0⟩, "hello", []⟩
        (.response 500 "Internal Server Error"
          (.error "Unexpected token <"))).1.chatbox.entries
      = [(0, ⟨.user, "hello"⟩),
         (2, ⟨.error, "Error: HTTP error! Status: 500"⟩)] :=
  (http_error_message_resolution scriptJs ⟨⟨[], 0⟩, "hello", []⟩ 500
      "Internal Server Error" (Or.inl rfl) (by decide)
      (by intro p hp; simp [Chatbox.wf] at hp) (by decide)).1 "Unexpected token <"

/-- C4 counterexample: in `app/static/script.js` the transport-failure
entry embeds the caught exception's `.message` verbatim between
parentheses, so the rendered text does contain raw exception text. -/
theorem scriptJs_network_error_embeds_exception_cex :
    (sendMessage scriptJs ⟨⟨[], 0⟩, "hello", []⟩
        (.failure "Failed to fetch")).1.chatbox.entries
      = [(0, ⟨.user, "hello"⟩),
         (2, ⟨.error,
           "Network error or failed to connect to the server. ("
             ++ "Failed to fetch" ++ ")"⟩)] := by
  decide

/-- C4 amended: in the popup-widget script a transport failure renders
exactly one role=error entry whose text is the fixed generic
connection-failure message — independent of the exception's message, so
no exception detail reaches the transcript — while the underlying cause
is appended to the diagnostic log. -/
theorem popup_network_error_generic (st : WidgetState) (msg : String)
    (hne : jsTrim st.inputValue ≠ "") (wf : st.chatbox.wf) :
    (sendMessage popupScript st (.failure msg)).1.chatbox.entries
      = st.chatbox.entries ++
          [(st.chatbox.nextId, ⟨.user, jsTrim st.inputValue⟩),
           (st.chatbox.nextId + 2,
            ⟨.error, "Connection error. Please try again later."⟩)]
    ∧ (sendMessage popupScript st (.failure msg)).1.log
        = st.log ++ ["Fetch Error: " ++ msg] := by
  constructor
  · have h := (sendMessage_run popupScript (Or.inr rfl) st (.failure msg) hne wf).1
    have hterm : terminalEntry popupScript (.failure msg)
        = ⟨.error, "Connection error. Please try again later."⟩ := rfl
    rw [h, hterm]
  · exact sendMessage_failure_log popupScript (Or.inr rfl) st msg hne

/-- Witness for the amended C4 at a concrete transport error. -/
theorem popup_network_error_generic_witness :
    (sendMessage popupScript ⟨⟨[], 0⟩, "hi", []⟩
        (.failure "NetworkError when attempting to fetch resource.")).1.chatbox.entries
      = [(0, ⟨.user, "hi"⟩),
         (2, ⟨.error, "Connection error. Please try again later."⟩)]
    ∧ (sendMessage popupScript ⟨⟨[], 0⟩, "hi", []⟩
        (.failure "NetworkError when attempting to fetch resource.")).1.log
      = ["Fetch Error: NetworkError when attempting to fetch resource."] :=
  popup_network_error_generic ⟨⟨[], 0⟩, "hi", []⟩
    "NetworkError when attempting to fetch resource." (by decide)
    (by intro p hp; simp [Chatbox.wf] at hp)

/-- C6: for every settled exchange the pending indicator is gone from the
final transcript (never simultaneous with the terminal entry), exactly
one terminal entry sits after the user entry in its place, and the
containment-guarded removal makes a duplicate removal a no-op. -/
theorem indicator_removed_before_terminal (v : ScriptVariant)
    (st : WidgetState) (outcome : FetchOutcome)
    (hv : v = scriptJs ∨ v = popupScript)
    (hne : jsTrim st.inputValue ≠ "") (wf : st.chatbox.wf) :
    (∃ term : ConversationEntry,
      (sendMessage v st outcome).1.chatbox.entries
        = st.chatbox.entries ++
            [(st.chatbox.nextId, ⟨.user, jsTrim st.inputValue⟩),
             (st.chatbox.nextId + 2, term)])
    ∧ (∀ p ∈ (sendMessage v st outcome).1.chatbox.entries,
        p.1 ≠ st.chatbox.nextId + 1)
    ∧ (∀ (cb : Chatbox) (hd : Nat),
        (cb.removeIfContained hd).removeIfContained hd
          = cb.removeIfContained hd) := by
  have h := (sendMessage_run v hv st outcome hne wf).1
  refine ⟨⟨terminalEntry v outcome, by rw [h]⟩, ?_,
    fun cb hd => removeIfContained_idem cb hd⟩
  intro p hp
  rw [h] at hp
  simp only [List.mem_append, List.mem_cons, List.mem_singleton,
    List.not_mem_nil, or_false] at hp
  rcases hp with hp | hp | hp
  · have := wf p hp
    omega
  · subst hp
    exact Nat.ne_of_lt (Nat.lt_succ_self _)
  · subst hp
    exact Nat.succ_ne_succ.mpr (Nat.succ_ne_self _)

/-- Witness for C6 at a concrete exchange. -/
theorem indicator_removed_before_terminal_witness :
    (∃ term : ConversationEntry,
      (sendMessage scriptJs ⟨⟨[], 0⟩, "hi", []⟩
          (.response 200 "OK" (.ok (.vObj [("reply", .vStr "ok")])))).1.chatbox.entries
        = [] ++ [(0, ⟨.user, jsTrim "hi"⟩), (2, term)])
    ∧ (∀ p ∈ (sendMessage scriptJs ⟨⟨[], 0⟩, "hi", []⟩
          (.response 200 "OK" (.ok (.vObj [("reply", .vStr "ok")])))).1.chatbox.entries,
        p.1 ≠ 1)
    ∧ (∀ (cb : Chatbox) (hd : Nat),
        (cb.removeIfContained hd).removeIfContained hd
          = cb.removeIfContained hd) :=
  indicator_removed_before_terminal scriptJs ⟨⟨[], 0⟩, "hi", []⟩
    (.response 200 "OK" (.ok (.vObj [("reply", .vStr "ok")])))
    (Or.inl rfl) (by decide) (by intro p hp; simp [Chatbox.wf] at hp)

/-- C7: for a non-empty trimmed input, at the moment the network call is
dispatched the transcript has gained exactly the user entry (the
indicator that follows it is not user-role) with the trimmed text, the
input field is cleared, and the call is issued. -/
theorem optimistic_user_entry_before_dispatch (v : ScriptVariant)
    (st : WidgetState) (outcome : FetchOutcome)
    (hv : v = scriptJs ∨ v = popupScript)
    (hne : jsTrim st.inputValue ≠ "") :
    ∃ ind : ConversationEntry,
      sendMessageBeforeDispatch v st
        = some (⟨⟨st.chatbox.entries ++
              [(st.chatbox.nextId, ⟨.user, jsTrim st.inputValue⟩),
               (st.chatbox.nextId + 1, ind)], st.chatbox.nextId + 2⟩,
            "", st.log⟩, st.chatbox.nextId + 1)
      ∧ ind.role ≠ .user
      ∧ (sendMessage v st outcome).2 = true := by
  obtain ⟨⟨l, n⟩, inp, lg⟩ := st
  rcases hv with rfl | rfl
  · refine ⟨⟨.bot, "..."⟩, ?_, by decide, ?_⟩
    · simp [sendMessageBeforeDispatch, hne, scriptJs, addMessageToChatbox,
        Chatbox.append]
    · simp [sendMessage, sendMessageBeforeDispatch, hne]
  · refine ⟨⟨.pending, ""⟩, ?_, by decide, ?_⟩
    · simp [sendMessageBeforeDispatch, hne, popupScript, addMessageToChatbox,
        addThinkingIndicator, Chatbox.append]
    · simp [sendMessage, sendMessageBeforeDispatch, hne]

/-- Witness for C7 at a concrete submission. -/
theorem optimistic_user_entry_before_dispatch_witness :
    ∃ ind : ConversationEntry,
      sendMessageBeforeDispatch scriptJs ⟨⟨[], 0⟩, " hi ", []⟩
        = some (⟨⟨[] ++ [(0, ⟨.user, jsTrim " hi "⟩), (1, ind)], 2⟩, "", []⟩, 1)
      ∧ ind.role ≠ .user
      ∧ (sendMessage scriptJs ⟨⟨[], 0⟩, " hi ", []⟩ (.failure "boom")).2 = true :=
  optimistic_user_entry_before_dispatch scriptJs ⟨⟨[], 0⟩, " hi ", []⟩
    (.failure "boom") (Or.inl rfl) (by decide)

/-- C9: on a 2xx parsed body the terminal-entry classification follows JS
truthiness of the reply value: an empty-string reply yields the
role=error empty-or-invalid entry, while any truthy reply value
(including a non-zero number) yields a role=bot entry with the value's
string coercion. -/
theorem reply_truthiness_classification (v : ScriptVariant)
    (st : WidgetState) (status : Nat) (statusText : String)
    (fields : List (String × JSValue))
    (hv : v = scriptJs ∨ v = popupScript)
    (hne : jsTrim st.inputValue ≠ "") (wf : st.chatbox.wf)
    (hok : responseOk status = true) :
    (fields.lookup "reply" = some (.vStr "") →
      (sendMessage v st (.response status statusText (.ok (.vObj fields)))).1.chatbox.entries
        = st.chatbox.entries ++
            [(st.chatbox.nextId, ⟨.user, jsTrim st.inputValue⟩),
             (st.chatbox.nextId + 2, ⟨.error, v.emptyInvalidMsg⟩)])
    ∧ (∀ r : JSValue, fields.lookup "reply" = some r → r.truthy = true →
      (sendMessage v st (.response status statusText (.ok (.vObj fields)))).1.chatbox.entries
        = st.chatbox.entries ++
            [(st.chatbox.nextId, ⟨.user, jsTrim st.inputValue⟩),
             (st.chatbox.nextId + 2, ⟨.bot, r.display⟩)]) := by
  constructor
  · intro hf
    have h := (sendMessage_run v hv st
      (.response status statusText (.ok (.vObj fields))) hne wf).1
    have hterm : terminalEntry v (.response status statusText (.ok (.vObj fields)))
        = ⟨.error, v.emptyInvalidMsg⟩ := by
      simp [terminalEntry, hok, JSValue.getField, hf, JSValue.truthy]
    rw [h, hterm]
  · intro r hf hr
    have h := (sendMessage_run v hv st
      (.response status statusText (.ok (.vObj fields))) hne wf).1
    have hterm : terminalEntry v (.response status statusText (.ok (.vObj fields)))
        = ⟨.bot, r.display⟩ := by
      simp [terminalEntry, hok, JSValue.getField, hf, hr]
      rfl
    rw [h, hterm]

/-- Witness for C9: a truthy non-string reply (the number 5) renders a
bot entry with text `5`. -/
theorem reply_truthiness_classification_witness :
    (sendMessage scriptJs ⟨⟨[], 0⟩, "hello", []⟩
        (.response 200 "OK" (.ok (.vObj [("reply", .vNum 5)])))).1.chatbox.entries
      = [(0, ⟨.user, "hello"⟩), (2, ⟨.bot, "5"⟩)] :=
  (reply_truthiness_classification scriptJs ⟨⟨[], 0⟩, "hello", []⟩ 200 "OK"
      [("reply", .vNum 5)] (Or.inl rfl) (by decide)
      (by intro p hp; simp [Chatbox.wf] at hp) (by decide)).2
    (.vNum 5) rfl (by decide)

/-- C10: an input that is empty or whitespace-only leaves the input
field's content unchanged. -/
theorem whitespace_submit_preserves_input (v : ScriptVariant)
    (st : WidgetState) (outcome : FetchOutcome)
    (hws : jsTrim st.inputValue = "") :
    (sendMessage v st outcome).1.inputValue = st.inputValue := by
  rw [sendMessage_noop v st outcome hws]

/-- Witness for C10 at the whitespace-only input `"  \t "`. -/
theorem whitespace_submit_preserves_input_witness :
    jsTrim "  \t " = ""
    ∧ (sendMessage popupScript ⟨⟨[], 0⟩, "  \t ", []⟩
        (.response 200 "OK" (.ok (.vObj [])))).1.inputValue = "  \t " :=
  ⟨by decide,
   whitespace_submit_preserves_input popupScript ⟨⟨[], 0⟩, "  \t ", []⟩
     (.response 200 "OK" (.ok (.vObj []))) (by decide)⟩

end Chatbot
